import Mathlib

/-!
Verification development for the DistributedCompute host agent
(`apps/agent/src/distributed_agent`).

The Python modules are shallowly embedded as pure Lean functions over
explicit state records.  External effects (the Docker daemon, spawned
tunnel child processes, the filesystem holding generated tunnel config
files, the WebSocket dial) are modelled by oracle parameters that select
which outcome the external world produces; the embedded functions then
perform exactly the state updates and event emissions that the Python
code performs for that outcome.

Python dictionaries are modelled as association lists
(`List (String × β)`) with dict-style insertion (replace the existing
entry in place, otherwise append), matching CPython insertion-order
semantics.  The filesystem is modelled as the set (list) of paths that
currently exist on disk.
-/

/-! ## Association-list helpers (Python `dict` operations) -/

/-- `m.get(k)` on a Python dict: first entry with the given key. -/
def lookupA {β : Type} : List (String × β) → String → Option β
  | [], _ => none
  | (k0, v0) :: t, k => if k0 = k then some v0 else lookupA t k

/-- `m[k] = v` on a Python dict: replace the existing entry in place,
otherwise append at the end. -/
def insertA {β : Type} : List (String × β) → String → β → List (String × β)
  | [], k, v => [(k, v)]
  | (k0, v0) :: t, k, v =>
    if k0 = k then (k, v) :: t else (k0, v0) :: insertA t k v

/-- `del m[k]` on a Python dict (no-op when the key is absent). -/
def eraseA {β : Type} (m : List (String × β)) (k : String) : List (String × β) :=
  m.filter (fun p => decide (p.1 ≠ k))

/-- `m.pop(k, None)` on a Python dict: the removed value (if any) and the
remaining entries. -/
def popA {β : Type} : List (String × β) → String → Option β × List (String × β)
  | [], _ => (none, [])
  | (k0, v0) :: t, k =>
    if k0 = k then (some v0, t)
    else ((popA t k).1, (k0, v0) :: (popA t k).2)

/-- Number of entries carrying a given key. -/
def countKey {β : Type} (m : List (String × β)) (k : String) : Nat :=
  m.countP (fun p => decide (p.1 = k))

theorem lookupA_eq_none_iff {β : Type} (m : List (String × β)) (k : String) :
    lookupA m k = none ↔ ∀ p ∈ m, p.1 ≠ k := by
  induction m with
  | nil => simp [lookupA]
  | cons h t ih =>
    obtain ⟨k0, v0⟩ := h
    by_cases hk : k0 = k <;> simp [lookupA, hk, ih]

theorem lookupA_none_countKey {β : Type} (m : List (String × β)) (k : String)
    (h : lookupA m k = none) : countKey m k = 0 := by
  rw [lookupA_eq_none_iff] at h
  induction m with
  | nil => simp [countKey]
  | cons p t ih =>
    have hp := h p (by simp)
    have ht : ∀ q ∈ t, q.1 ≠ k := fun q hq => h q (by simp [hq])
    simp only [countKey, List.countP_cons] at *
    simp [hp, ih ht]

theorem countKey_insertA {β : Type} (m : List (String × β)) (k : String) (v : β) :
    countKey (insertA m k v) k = max 1 (countKey m k) := by
  induction m with
  | nil => simp [insertA, countKey, List.countP_cons]
  | cons h t ih =>
    obtain ⟨k0, v0⟩ := h
    by_cases hk : k0 = k
    · subst hk
      simp [insertA, countKey, List.countP_cons]
    · simp only [insertA, hk, if_false, countKey, List.countP_cons] at *
      simp [hk, ih]

theorem countKey_append_single {β : Type} (m : List (String × β)) (k : String) (v : β) :
    countKey (m ++ [(k, v)]) k = countKey m k + 1 := by
  simp [countKey, List.countP_append, List.countP_cons]

theorem lookupA_filter_ne {β : Type} (m : List (String × β)) (k r : String)
    (hne : r ≠ k) :
    lookupA (m.filter (fun p => decide (p.1 ≠ k))) r = lookupA m r := by
  have hkr : k ≠ r := Ne.symm hne
  induction m with
  | nil => simp
  | cons h t ih =>
    obtain ⟨k0, v0⟩ := h
    by_cases hk : k0 = k
    · subst hk
      simp only [ne_eq, decide_not] at ih
      simp [lookupA, hkr, ih]
    · by_cases hr : k0 = r
      · subst hr
        simp [lookupA, hk, ih]
      · simp only [ne_eq, decide_not] at ih
        simp [lookupA, hk, hr, ih]

theorem popA_fst {β : Type} (m : List (String × β)) (k : String) :
    (popA m k).1 = lookupA m k := by
  induction m with
  | nil => simp [popA, lookupA]
  | cons h t ih =>
    obtain ⟨k0, v0⟩ := h
    by_cases hk : k0 = k <;> simp [popA, lookupA, hk, ih]

theorem lookupA_popA_ne {β : Type} (m : List (String × β)) (k r : String)
    (hne : r ≠ k) :
    lookupA (popA m k).2 r = lookupA m r := by
  have hkr : k ≠ r := Ne.symm hne
  induction m with
  | nil => simp [popA]
  | cons h t ih =>
    obtain ⟨k0, v0⟩ := h
    by_cases hk : k0 = k
    · subst hk
      simp [popA, lookupA, hkr]
    · by_cases hr : k0 = r
      · subst hr
        simp [popA, lookupA, hk, ih]
      · simp [popA, lookupA, hk, hr, ih]

theorem lookupA_isSome_mem_keys {β : Type} (m : List (String × β)) (k : String)
    (h : (lookupA m k).isSome) : k ∈ m.map Prod.fst := by
  induction m with
  | nil => simp [lookupA] at h
  | cons p t ih =>
    obtain ⟨k0, v0⟩ := p
    by_cases hk : k0 = k
    · simp [hk]
    · simp only [lookupA, hk, if_false] at h
      simp [ih h]

/-! ## Shell-style glob matching (`fnmatch.fnmatch`)

`DockerManager.is_image_allowed` matches the image reference against each
configured pattern with `fnmatch.fnmatch`.  On a POSIX host
`os.path.normcase` is the identity, so `fnmatch` is case-sensitive there;
we model that case.  Special pattern elements: `*` matches any sequence,
`?` matches one character, `[...]` a character set (leading `!` negates;
a `]` directly after `[` or `[!` is a literal member; `a-b` is an
inclusive codepoint range with `-` literal at either end; an unclosed
`[` is a literal `[`). -/

inductive GlobTok : Type where
  | star : GlobTok
  | anyChar : GlobTok
  | cls (negated : Bool) (content : List Char) : GlobTok
  | lit (c : Char) : GlobTok
deriving DecidableEq

/-- Split a character-set body at its closing `]`. -/
def findClose : List Char → Option (List Char × List Char)
  | [] => none
  | c :: rest =>
    if c = ']' then some ([], rest)
    else
      match findClose rest with
      | some (content, r) => some (c :: content, r)
      | none => none

theorem findClose_length :
    ∀ (l content r : List Char), findClose l = some (content, r) →
      r.length < l.length := by
  intro l
  induction l with
  | nil => intro c r h; simp [findClose] at h
  | cons a t ih =>
    intro c r h
    simp only [findClose] at h
    split at h
    · cases h
      simp
    · cases hf : findClose t with
      | none => rw [hf] at h; cases h
      | some p =>
        obtain ⟨c2, r2⟩ := p
        rw [hf] at h
        cases h
        have := ih _ _ hf
        simp
        omega

/-- Body of a character set: a `]` in first position is a literal member. -/
def parseSetBody (l : List Char) : Option (List Char × List Char) :=
  match l with
  | ']' :: t =>
    match findClose t with
    | some (content, r) => some (']' :: content, r)
    | none => none
  | _ => findClose l

theorem parseSetBody_length (l content r : List Char)
    (h : parseSetBody l = some (content, r)) : r.length < l.length := by
  unfold parseSetBody at h
  split at h
  · rename_i t
    cases hf : findClose t with
    | none => rw [hf] at h; cases h
    | some p =>
      obtain ⟨c2, r2⟩ := p
      rw [hf] at h
      cases h
      have := findClose_length t _ _ hf
      simp
      omega
  · exact findClose_length l content r h

/-- Parse one `[...]` construct (input starts just after the `[`). -/
def parseSetTok (l : List Char) : Option (GlobTok × List Char) :=
  match l with
  | '!' :: t =>
    match parseSetBody t with
    | some (content, r) => some (.cls true content, r)
    | none => none
  | _ =>
    match parseSetBody l with
    | some (content, r) => some (.cls false content, r)
    | none => none

theorem parseSetTok_length (l : List Char) (tok : GlobTok) (r : List Char)
    (h : parseSetTok l = some (tok, r)) : r.length < l.length := by
  unfold parseSetTok at h
  split at h
  · rename_i t
    cases hb : parseSetBody t with
    | none => rw [hb] at h; cases h
    | some p =>
      obtain ⟨c2, r2⟩ := p
      rw [hb] at h
      cases h
      have := parseSetBody_length t _ _ hb
      simp
      omega
  · cases hb : parseSetBody l with
    | none => rw [hb] at h; cases h
    | some p =>
      obtain ⟨c2, r2⟩ := p
      rw [hb] at h
      cases h
      exact parseSetBody_length l _ _ hb

/-- Tokenize a glob pattern.  The recursion consumes at least one
character per step; the explicit fuel (initialized to the pattern
length, which always suffices) keeps the definition structurally
recursive and hence kernel-evaluable. -/
def parseGlobFuel : Nat → List Char → List GlobTok
  | 0, _ => []
  | _, [] => []
  | fuel + 1, c :: rest =>
    if c = '*' then .star :: parseGlobFuel fuel rest
    else if c = '?' then .anyChar :: parseGlobFuel fuel rest
    else if c = '[' then
      match parseSetTok rest with
      | some (tok, rest2) => tok :: parseGlobFuel fuel rest2
      | none => .lit '[' :: parseGlobFuel fuel rest
    else .lit c :: parseGlobFuel fuel rest

/-- Tokenize a glob pattern. -/
def parseGlob (l : List Char) : List GlobTok := parseGlobFuel l.length l

/-- Character-set membership: singletons and `a-b` codepoint ranges. -/
def setMatches : List Char → Char → Bool
  | a :: '-' :: b :: rest, c =>
    if a ≤ c ∧ c ≤ b then true else setMatches rest c
  | a :: rest, c => if a = c then true else setMatches rest c
  | [], _ => false

/-- Glob matching over tokenized pattern and subject characters.  A
`*` consumes an arbitrary prefix, i.e. the rest of the pattern must
match some suffix of the subject. -/
def globMatch : List GlobTok → List Char → Bool
  | [], s => s.isEmpty
  | .star :: ps, s => s.tails.any (fun t => globMatch ps t)
  | .anyChar :: ps, s =>
    match s with
    | [] => false
    | _ :: t => globMatch ps t
  | .lit c :: ps, s =>
    match s with
    | [] => false
    | a :: t => decide (a = c) && globMatch ps t
  | .cls neg content :: ps, s =>
    match s with
    | [] => false
    | a :: t => (neg != setMatches content a) && globMatch ps t

/-- `fnmatch.fnmatch(name, pattern)` on a case-sensitive (POSIX) host. -/
def fnmatch (name pattern : String) : Bool :=
  globMatch (parseGlob pattern.toList) name.toList

/-- A pattern with no glob metacharacters. -/
def plainPattern (p : String) : Bool :=
  p.toList.all (fun c => decide (c ≠ '*') && decide (c ≠ '?') && decide (c ≠ '['))

theorem parseGlobFuel_plain (fuel : Nat) (l : List Char)
    (hf : l.length ≤ fuel)
    (h : ∀ c ∈ l, c ≠ '*' ∧ c ≠ '?' ∧ c ≠ '[') :
    parseGlobFuel fuel l = l.map GlobTok.lit := by
  induction fuel generalizing l with
  | zero =>
    cases l with
    | nil => simp [parseGlobFuel]
    | cons c t => simp at hf
  | succ fuel ih =>
    cases l with
    | nil => simp [parseGlobFuel]
    | cons c t =>
      obtain ⟨h1, h2, h3⟩ := h c (by simp)
      have ht : ∀ c ∈ t, c ≠ '*' ∧ c ≠ '?' ∧ c ≠ '[' := fun c hc => h c (by simp [hc])
      have hft : t.length ≤ fuel := by simp at hf; omega
      rw [parseGlobFuel]
      simp [h1, h2, h3, ih t hft ht]

theorem parseGlob_plain (l : List Char)
    (h : ∀ c ∈ l, c ≠ '*' ∧ c ≠ '?' ∧ c ≠ '[') :
    parseGlob l = l.map GlobTok.lit :=
  parseGlobFuel_plain l.length l (Nat.le_refl _) h

theorem globMatch_all_lit (l s : List Char) :
    globMatch (l.map GlobTok.lit) s = decide (s = l) := by
  induction l generalizing s with
  | nil =>
    cases s <;> simp [globMatch, List.isEmpty]
  | cons c t ih =>
    cases s with
    | nil => simp [globMatch]
    | cons a s2 =>
      simp only [List.map, globMatch, ih]
      by_cases hac : a = c <;> by_cases hst : s2 = t <;> simp [hac, hst]

/-- A metacharacter-free pattern matches exactly itself. -/
theorem fnmatch_plain (name pattern : String) (h : plainPattern pattern = true) :
    fnmatch name pattern = true ↔ name = pattern := by
  unfold plainPattern at h
  simp only [List.all_eq_true, Bool.and_eq_true, decide_eq_true_eq] at h
  have h2 : ∀ c ∈ pattern.toList, c ≠ '*' ∧ c ≠ '?' ∧ c ≠ '[' := by
    intro c hc
    exact ⟨(h c hc).1.1, (h c hc).1.2, (h c hc).2⟩
  unfold fnmatch
  rw [parseGlob_plain pattern.toList h2, globMatch_all_lit]
  constructor
  · intro he
    have : name.toList = pattern.toList := by simpa using he
    have := congrArg (fun l => String.mk l) this
    simpa using this
  · intro he
    subst he
    simp

/-! ## Data model (`models.py`, `config.py`) -/

/-- `NodeStatus` from `models.py`. -/
inductive NodeStatus : Type where
  | online : NodeStatus
  | busy : NodeStatus
  | maintenance : NodeStatus
  | offline : NodeStatus
deriving DecidableEq

/-- Outbound events emitted by the agent (`backend_client.py` senders).
`send_message` never raises: on a closed or absent connection it merely
returns `False`, so emission is modelled as appending to an event list. -/
inductive Event : Type where
  | instance_started (rental_id container_id ssh_host : String) (ssh_port : Int)
      (additional_ports : List (String × Int)) : Event
  | instance_stopped (rental_id container_id reason : String)
      (error_message : Option String) : Event
  | agent_error (code message : String) : Event
  | heartbeat (status : NodeStatus) : Event
deriving DecidableEq

/-- `DockerConfig` (only the field the modelled operations consult). -/
structure DockerConfig : Type where
  allowed_images : List String
deriving DecidableEq

/-- `DockerManager` mutable state: `_active_containers`
(rental_id → container_id). -/
structure DockerState : Type where
  activeContainers : List (String × String)
deriving DecidableEq

/-- `StartInstanceCommandData` (fields consulted by the modelled paths;
`resource_limits` and `env_vars` only shape the container-run request
passed to the daemon and are absorbed into the daemon oracle). -/
structure StartInstanceData : Type where
  rental_id : String
  image : String
  proxy_port_mapping : List (String × Int)
deriving DecidableEq

/-- `StopInstanceCommandData`. -/
structure StopInstanceData : Type where
  rental_id : String
  container_id : String
  graceful : Bool
  timeout_seconds : Int
deriving DecidableEq

/-! ## Container supervisor (`docker_manager.py`) -/

/-- The `DockerError` exception hierarchy raised by `DockerManager`. -/
inductive DockerErr : Type where
  | imageNotAllowed (msg : String) : DockerErr
  | dockerError (msg : String) : DockerErr
  | containerStartError (msg : String) : DockerErr
deriving DecidableEq

/-- `str(e)` of a `DockerError`. -/
def DockerErr.message : DockerErr → String
  | .imageNotAllowed m => m
  | .dockerError m => m
  | .containerStartError m => m

/-- `DockerManager.is_image_allowed`: `fnmatch` the image reference
against each configured pattern, true on the first hit. -/
def is_image_allowed (allowed_images : List String) (image : String) : Bool :=
  allowed_images.any (fun pattern => fnmatch image pattern)

/-- Message of the `ImageNotAllowedError` raised by `start_container`. -/
def imageNotAllowedMsg (image : String) (allowed : List String) : String :=
  "Image " ++ image ++ " is not in the allowed list. Allowed patterns: " ++
    String.intercalate ", " allowed

/-- Daemon-side outcome of the pull-then-run sequence in
`DockerManager.start_container`. -/
inductive StartOutcome : Type where
  | ok (container_id : String) : StartOutcome
  | pullFail (msg : String) : StartOutcome
  | containerError (msg : String) : StartOutcome
  | imageNotFound (msg : String) : StartOutcome
  | apiError (msg : String) : StartOutcome
deriving DecidableEq

/-- `DockerManager.start_container`: validate the image against the
allow-list, then pull and run; on success record
`_active_containers[rental_id] = container_id` and return the id. -/
def start_container (cfg : DockerConfig) (st : DockerState) (data : StartInstanceData)
    (daemon : StartOutcome) : Except DockerErr (DockerState × String) :=
  if is_image_allowed cfg.allowed_images data.image then
    match daemon with
    | .ok cid =>
        .ok ({ activeContainers := insertA st.activeContainers data.rental_id cid }, cid)
    | .pullFail m =>
        .error (.dockerError ("Failed to pull image " ++ data.image ++ ": " ++ m))
    | .containerError m =>
        .error (.containerStartError ("Container exited with error: " ++ m))
    | .imageNotFound m =>
        .error (.containerStartError ("Image not found: " ++ m))
    | .apiError m =>
        .error (.containerStartError ("Docker API error: " ++ m))
  else
    .error (.imageNotAllowed (imageNotAllowedMsg data.image cfg.allowed_images))

/-- Daemon-side outcome of `DockerManager.stop_container`. -/
inductive StopOutcome : Type where
  | stopped : StopOutcome
  | notFound : StopOutcome
  | apiError (msg : String) : StopOutcome
deriving DecidableEq

/-- `DockerManager.stop_container`: stop (or kill) the container; a
daemon `NotFound` is success; in both success cases the tracking entry is
removed when `rental_id` is truthy; a daemon `APIError` raises
`DockerError`.  `graceful`/`timeout` only select stop versus kill on the
daemon side and do not affect the tracked state. -/
def stop_container (st : DockerState) (container_id rental_id : String)
    (graceful : Bool) (timeout : Int) (outcome : StopOutcome) :
    Except String DockerState :=
  match outcome with
  | .stopped =>
      .ok { activeContainers :=
              if rental_id ≠ "" then eraseA st.activeContainers rental_id
              else st.activeContainers }
  | .notFound =>
      .ok { activeContainers :=
              if rental_id ≠ "" then eraseA st.activeContainers rental_id
              else st.activeContainers }
  | .apiError m => .error ("Failed to stop container: " ++ m)

/-- Daemon answer to a `containers.get(container_id)` status probe
(`DockerManager.get_container_status` catches only `NotFound`; an
`APIError` propagates). -/
inductive InspectOutcome : Type where
  | found (status : String) : InspectOutcome
  | notFound : InspectOutcome
  | apiError (msg : String) : InspectOutcome

/-- The pruning loop of `DockerManager.list_active_rentals`: keep entries
whose container still exists; a daemon error mid-loop propagates, leaving
`_active_containers` unchanged. -/
def pruneActive : List (String × String) → (String → InspectOutcome) →
    Except String (List (String × String))
  | [], _ => .ok []
  | (r, c) :: t, inspect =>
    match inspect c with
    | .apiError m => .error m
    | .notFound => pruneActive t inspect
    | .found _ => (pruneActive t inspect).map (fun rest => (r, c) :: rest)

/-- `DockerManager.list_active_rentals`: prune dead entries, store the
pruned map back, and return a copy of it. -/
def list_active_rentals (st : DockerState) (inspect : String → InspectOutcome) :
    Except String (DockerState × List (String × String)) :=
  (pruneActive st.activeContainers inspect).map
    (fun pruned => ({ activeContainers := pruned }, pruned))

/-! ## Tunnel supervisor (`tunnel.py`) -/

/-- A spawned `frpc` child: its pid and, once it has exited, the code
that `Popen.poll()` reports. -/
structure ProcState : Type where
  pid : Nat
  exitCode : Option Int
deriving DecidableEq

/-- `TunnelManager` mutable state plus the filesystem holding the
generated config files: `_active_tunnels` (rental_id → process),
`_tunnel_configs` (rental_id → config path), and the set of paths
currently existing on disk. -/
structure TunnelState : Type where
  activeTunnels : List (String × ProcState)
  tunnelConfigs : List (String × String)
  disk : List String
deriving DecidableEq

/-- Outcome of resolving the `frpc` binary and spawning it. -/
inductive SpawnOutcome : Type where
  | ok (pid : Nat) : SpawnOutcome
  | frpcMissing : SpawnOutcome
  | spawnFail (msg : String) : SpawnOutcome
deriving DecidableEq

/-- `Path.write_text`: the path exists on disk afterwards. -/
def addPath (disk : List String) (p : String) : List String :=
  if p ∈ disk then disk else p :: disk

/-- `Path.unlink`: the path no longer exists on disk. -/
def unlinkPath (disk : List String) (p : String) : List String :=
  disk.filter (fun q => decide (q ≠ p))

/-- `TunnelManager.create_tunnel`: if `rental_id` already has a tunnel,
log and return without any action.  Otherwise write the generated config
to a fresh temp path, record it in `_tunnel_configs`, and spawn `frpc`;
on success record the process in `_active_tunnels`; on a spawn failure
the config file is unlinked (but its `_tunnel_configs` entry remains) and
the error is raised.  Returns the new state and the raised error, if
any. -/
def create_tunnel (st : TunnelState) (rental_id : String) (cfgPath : String)
    (spawn : SpawnOutcome) : TunnelState × Option String :=
  if (lookupA st.activeTunnels rental_id).isSome then (st, none)
  else
    let disk1 := addPath st.disk cfgPath
    let cfgs1 := insertA st.tunnelConfigs rental_id cfgPath
    match spawn with
    | .ok pid =>
        ({ activeTunnels := st.activeTunnels ++ [(rental_id, ⟨pid, none⟩)],
           tunnelConfigs := cfgs1, disk := disk1 }, none)
    | .frpcMissing =>
        ({ st with tunnelConfigs := cfgs1, disk := unlinkPath disk1 cfgPath },
         some "Failed to start tunnel: frpc binary not found")
    | .spawnFail m =>
        ({ st with tunnelConfigs := cfgs1, disk := unlinkPath disk1 cfgPath },
         some ("Failed to start tunnel: " ++ m))

/-- `TunnelManager.destroy_tunnel`: no-op when no tunnel is recorded;
otherwise terminate/kill the child (all wait errors are swallowed),
delete the `_active_tunnels` entry, pop the `_tunnel_configs` entry, and
unlink the config file if it exists.  Never raises. -/
def destroy_tunnel (st : TunnelState) (rental_id : String) : TunnelState :=
  if (lookupA st.activeTunnels rental_id).isSome then
    { activeTunnels := eraseA st.activeTunnels rental_id,
      tunnelConfigs := (popA st.tunnelConfigs rental_id).2,
      disk :=
        match (popA st.tunnelConfigs rental_id).1 with
        | some p => if p ∈ st.disk then unlinkPath st.disk p else st.disk
        | none => st.disk }
  else st

/-- `TunnelManager.destroy_all_tunnels`: destroy every rental id listed
in `_active_tunnels` (snapshot of the keys, then one destroy each). -/
def destroy_all_tunnels (st : TunnelState) : TunnelState :=
  (st.activeTunnels.map Prod.fst).foldl destroy_tunnel st

/-- `TunnelManager.get_tunnel_status`. -/
def get_tunnel_status (st : TunnelState) (rental_id : String) : String :=
  match lookupA st.activeTunnels rental_id with
  | none => "not_found"
  | some proc =>
    match proc.exitCode with
    | none => "running"
    | some code => if code = 0 then "exited_ok" else "exited_error_" ++ toString code

/-! ## Control session (`backend_client.py`) -/

/-- `BackendClient` mutable state consulted by the modelled paths. -/
structure BackendState : Type where
  status : NodeStatus
  heartbeatInterval : ℚ
  connected : Bool
  reconnectCount : Nat
deriving DecidableEq

/-- `BackendClient.connect`: already connected returns `True` unchanged;
a successful dial sets `_connected`, resets `_reconnect_count`, and sets
`_status = ONLINE`; a failed dial (rejected or errored) returns `False`
with no state change. -/
def connect (b : BackendState) (dialOk : Bool) : BackendState × Bool :=
  if b.connected then (b, true)
  else if dialOk then
    ({ b with connected := true, reconnectCount := 0, status := .online }, true)
  else (b, false)

/-- What the run loop does after one step. -/
inductive RunStep : Type where
  | exitLoop : RunStep
  | sleep (delay : Nat) : RunStep
deriving DecidableEq

/-- The failed-dial branch of `BackendClient.run`: increment
`_reconnect_count`; if `max_reconnect_attempts > 0` and the count reached
it, break out of the loop; otherwise sleep
`min(reconnect_delay * 2 ** min(count, 5), 300)` seconds and retry.
Returns the new count and the action taken. -/
def run_failed_dial_step (reconnect_delay max_reconnect_attempts count : Nat) :
    Nat × RunStep :=
  if 0 < max_reconnect_attempts ∧ max_reconnect_attempts ≤ count + 1 then
    (count + 1, .exitLoop)
  else
    (count + 1, .sleep (min (reconnect_delay * 2 ^ (min (count + 1) 5)) 300))

/-! ## Orchestrator (`main.py`) -/

/-- The orchestrator-visible state: the backend client, the two
supervisors, and the settings fields the handlers consult.
`maxConcurrentRentals` is `settings.resources.max_concurrent_rentals`. -/
structure AgentState : Type where
  backend : BackendState
  docker : DockerState
  tunnel : TunnelState
  dockerCfg : DockerConfig
  frpServerAddr : String
  maxConcurrentRentals : Int
deriving DecidableEq

/-- External-world outcomes consumed by one `start_instance` handling. -/
structure StartEnv : Type where
  daemon : StartOutcome
  cfgPath : String
  spawn : SpawnOutcome
deriving DecidableEq

/-- `AgentOrchestrator._handle_start_instance`: start the container,
create the tunnel, emit `instance_started` (ssh_host from the FRP server
address, ssh_port `proxy_port_mapping.get("22", 22)`, additional ports
the mapping without `"22"`), and move `ONLINE` to `BUSY`; any exception
is reported as `agent_error("START_INSTANCE_FAILED", str(e))`. -/
def handle_start_instance (s : AgentState) (data : StartInstanceData) (env : StartEnv) :
    AgentState × List Event :=
  match start_container s.dockerCfg s.docker data env.daemon with
  | .error e => (s, [.agent_error "START_INSTANCE_FAILED" e.message])
  | .ok (d2, cid) =>
    match create_tunnel s.tunnel data.rental_id env.cfgPath env.spawn with
    | (t2, some m) =>
        ({ s with docker := d2, tunnel := t2 },
         [.agent_error "START_INSTANCE_FAILED" m])
    | (t2, none) =>
        let sshPort := (lookupA data.proxy_port_mapping "22").getD 22
        let addPorts := data.proxy_port_mapping.filter (fun p => decide (p.1 ≠ "22"))
        let newStatus :=
          if s.backend.status = .online then NodeStatus.busy else s.backend.status
        ({ s with docker := d2, tunnel := t2,
                  backend := { s.backend with status := newStatus } },
         [.instance_started data.rental_id cid s.frpServerAddr sshPort addPorts])

/-- External-world outcomes consumed by one `stop_instance` handling. -/
structure StopEnv : Type where
  stopOutcome : StopOutcome
  inspect : String → InspectOutcome

/-- `AgentOrchestrator._handle_stop_instance`: destroy the tunnel first
(never raises), stop the container, emit
`instance_stopped(reason="requested")`, then prune the active-rental map
and reset the status to `ONLINE` when it came back empty.  Any exception
in the `try` block lands in the `except` branch, which emits
`instance_stopped(reason="error", error_message=str(e))` — including an
exception raised by the pruning query after the success event was
already sent. -/
def handle_stop_instance (s : AgentState) (data : StopInstanceData) (env : StopEnv) :
    AgentState × List Event :=
  let t2 := destroy_tunnel s.tunnel data.rental_id
  match stop_container s.docker data.container_id data.rental_id
      data.graceful data.timeout_seconds env.stopOutcome with
  | .error m =>
      ({ s with tunnel := t2 },
       [.instance_stopped data.rental_id data.container_id "error" (some m)])
  | .ok d2 =>
    match list_active_rentals d2 env.inspect with
    | .error m =>
        ({ s with tunnel := t2, docker := d2 },
         [.instance_stopped data.rental_id data.container_id "requested" none,
          .instance_stopped data.rental_id data.container_id "error" (some m)])
    | .ok (d3, active) =>
        let newStatus := if active.isEmpty then NodeStatus.online else s.backend.status
        ({ s with tunnel := t2, docker := d3,
                  backend := { s.backend with status := newStatus } },
         [.instance_stopped data.rental_id data.container_id "requested" none])

/-- `AgentOrchestrator._handle_drain_node`: set status `MAINTENANCE`. -/
def handle_drain_node (s : AgentState) : AgentState :=
  { s with backend := { s.backend with status := .maintenance } }

/-- `AgentConfigData` from `models.py` (every field has a default, so all
three are always present on the parsed payload). -/
structure AgentConfigData : Type where
  heartbeat_interval_ms : Int
  max_concurrent_rentals : Int
  allowed_images : List String
deriving DecidableEq

/-- `AgentOrchestrator._handle_update_config`: a positive
`heartbeat_interval_ms` sets `heartbeat_interval` to `ms / 1000` (exact
division, modelled in `ℚ`); a non-empty `allowed_images` replaces the
allow-list; nothing else is written. -/
def handle_update_config (s : AgentState) (config : AgentConfigData) : AgentState :=
  let b :=
    if 0 < config.heartbeat_interval_ms then
      { s.backend with heartbeatInterval := (config.heartbeat_interval_ms : ℚ) / 1000 }
    else s.backend
  let cfg :=
    if config.allowed_images.isEmpty then s.dockerCfg
    else { s.dockerCfg with allowed_images := config.allowed_images }
  { s with backend := b, dockerCfg := cfg }

/-- One iteration of `BackendClient._heartbeat_loop`: send a heartbeat
carrying the current status, then sleep the current
`heartbeat_interval`. -/
def heartbeat_step (s : AgentState) : Event × ℚ :=
  (Event.heartbeat s.backend.status, s.backend.heartbeatInterval)

/-! ## Supporting lemmas about the embedded operations -/

theorem start_container_ok_state (cfg : DockerConfig) (st : DockerState)
    (data : StartInstanceData) (daemon : StartOutcome) (d2 : DockerState) (cid : String)
    (h : start_container cfg st data daemon = .ok (d2, cid)) :
    d2.activeContainers = insertA st.activeContainers data.rental_id cid := by
  unfold start_container at h
  split at h
  · cases daemon with
    | ok c0 =>
      simp only [Except.ok.injEq, Prod.mk.injEq] at h
      obtain ⟨h1, h2⟩ := h
      subst h2
      rw [← h1]
    | pullFail m => cases h
    | containerError m => cases h
    | imageNotFound m => cases h
    | apiError m => cases h
  · cases h

theorem start_container_error_of_not_allowed (cfg : DockerConfig) (st : DockerState)
    (data : StartInstanceData) (daemon : StartOutcome)
    (h : is_image_allowed cfg.allowed_images data.image = false) :
    start_container cfg st data daemon =
      .error (.imageNotAllowed (imageNotAllowedMsg data.image cfg.allowed_images)) := by
  unfold start_container
  simp [h]

/-! ## Claim theorems -/

/-- C6: for every failed connection attempt, with the attempt counter `n`
counted from 1 (the value of `_reconnect_count` after the increment) and
`base` the configured `reconnect_delay_seconds`, the delay slept before
the next dial equals `min(base * 2 ^ min(n, 5), 300)` seconds; with base
5 the first four delays are 10, 20, 40, 80 seconds. -/
theorem c6_reconnect_backoff :
    (∀ (base maxA count c2 d : Nat),
        run_failed_dial_step base maxA count = (c2, RunStep.sleep d) →
        c2 = count + 1 ∧ d = min (base * 2 ^ (min (count + 1) 5)) 300)
    ∧ run_failed_dial_step 5 0 0 = (1, RunStep.sleep 10)
    ∧ run_failed_dial_step 5 0 1 = (2, RunStep.sleep 20)
    ∧ run_failed_dial_step 5 0 2 = (3, RunStep.sleep 40)
    ∧ run_failed_dial_step 5 0 3 = (4, RunStep.sleep 80) := by
  refine ⟨?_, by decide, by decide, by decide, by decide⟩
  intro base maxA count c2 d h
  unfold run_failed_dial_step at h
  split at h
  · simp at h
  · simp only [Prod.mk.injEq, RunStep.sleep.injEq] at h
    exact ⟨h.1.symm, h.2.symm⟩

/-- Witness for C6: with base 5 and no attempt cap, the first failed dial
sleeps 10 seconds. -/
theorem c6_reconnect_backoff_witness :
    1 = 0 + 1 ∧ 10 = min (5 * 2 ^ (min (0 + 1) 5)) 300 :=
  c6_reconnect_backoff.1 5 0 0 1 10 (by decide)

/-- C8 counterexample: a tunnel whose child exited with code 1 is
reported as `"exited_error_1"`, not `"exited_code_1"` as the claim
states. -/
theorem c8_status_string_counterexample :
    get_tunnel_status
      { activeTunnels := [("r1", { pid := 40, exitCode := some 1 })],
        tunnelConfigs := [], disk := [] } "r1" = "exited_error_1"
    ∧ ("exited_error_1" : String) ≠ "exited_code_1" := by
  exact ⟨by decide, by decide⟩

/-- C8 (amended): `get_tunnel_status` returns `"not_found"` when no
process is recorded, `"running"` while the recorded process has not
exited, `"exited_ok"` on exit code 0, and `"exited_error_N"` (not
`"exited_code_N"`) on nonzero exit code N. -/
theorem c8_tunnel_status_classification (st : TunnelState) (rid : String) :
    (lookupA st.activeTunnels rid = none → get_tunnel_status st rid = "not_found")
    ∧ (∀ proc, lookupA st.activeTunnels rid = some proc →
        (proc.exitCode = none → get_tunnel_status st rid = "running")
        ∧ (proc.exitCode = some 0 → get_tunnel_status st rid = "exited_ok")
        ∧ (∀ c : Int, c ≠ 0 → proc.exitCode = some c →
            get_tunnel_status st rid = "exited_error_" ++ toString c)) := by
  constructor
  · intro h
    unfold get_tunnel_status
    simp [h]
  · intro proc h
    refine ⟨?_, ?_, ?_⟩
    · intro he
      unfold get_tunnel_status
      simp [h, he]
    · intro he
      unfold get_tunnel_status
      simp [h, he]
    · intro c hc he
      unfold get_tunnel_status
      simp [h, he, hc]

/-- Witness for C8: a recorded process with exit code 3 is classified as
`"exited_error_3"`. -/
theorem c8_tunnel_status_classification_witness :
    get_tunnel_status
      { activeTunnels := [("r2", { pid := 7, exitCode := some 3 })],
        tunnelConfigs := [], disk := [] } "r2" = "exited_error_" ++ toString (3 : Int) :=
  ((c8_tunnel_status_classification
      { activeTunnels := [("r2", { pid := 7, exitCode := some 3 })],
        tunnelConfigs := [], disk := [] } "r2").2
    { pid := 7, exitCode := some 3 } (by decide)).2.2 3 (by decide) rfl

/-- C10: with an empty allow-list `is_image_allowed` rejects every image
reference, so every container start fails with `ImageNotAllowedError`
regardless of the image requested. -/
theorem c10_empty_allowlist_blocks_all :
    (∀ image : String, is_image_allowed [] image = false)
    ∧ (∀ (cfg : DockerConfig) (st : DockerState) (data : StartInstanceData)
        (daemon : StartOutcome), cfg.allowed_images = [] →
        start_container cfg st data daemon =
          .error (.imageNotAllowed (imageNotAllowedMsg data.image []))) := by
  constructor
  · intro image; rfl
  · intro cfg st data daemon h
    have := start_container_error_of_not_allowed cfg st data daemon (by rw [h]; rfl)
    rw [h] at this
    exact this

/-- Witness for C10: the empty allow-list rejects `nvidia/cuda:12.0`. -/
theorem c10_empty_allowlist_blocks_all_witness :
    start_container { allowed_images := [] } { activeContainers := [] }
      { rental_id := "r1", image := "nvidia/cuda:12.0", proxy_port_mapping := [] }
      (StartOutcome.ok "c1") =
      .error (.imageNotAllowed (imageNotAllowedMsg "nvidia/cuda:12.0" [])) :=
  c10_empty_allowlist_blocks_all.2 _ _ _ _ rfl

/-- A sample agent state used by the C7 counterexample. -/
def c7State : AgentState :=
  { backend := { status := .online, heartbeatInterval := 5, connected := true,
                 reconnectCount := 0 },
    docker := { activeContainers := [] },
    tunnel := { activeTunnels := [], tunnelConfigs := [], disk := [] },
    dockerCfg := { allowed_images := ["pytorch/pytorch:*"] },
    frpServerAddr := "proxy.example.com",
    maxConcurrentRentals := 0 }

/-- C7 counterexample: an `update_config` payload whose only non-default
field is `max_concurrent_rentals = 3` changes nothing at all — the
handler never applies `max_concurrent_rentals` to the running
configuration. -/
theorem c7_update_config_counterexample :
    handle_update_config c7State
      { heartbeat_interval_ms := 0, max_concurrent_rentals := 3,
        allowed_images := [] } = c7State
    ∧ c7State.maxConcurrentRentals ≠ 3 := by
  exact ⟨rfl, by decide⟩

/-- C7 (amended): `update_config` applies `heartbeat_interval_ms` (when
positive; zero means no change) and `allowed_images` (when non-empty),
never touches `max_concurrent_rentals` or the status, and the heartbeat
loop reads the updated interval at its next iteration. -/
theorem c7_update_config_applied (s : AgentState) (config : AgentConfigData) :
    (handle_update_config s config).backend.heartbeatInterval =
      (if 0 < config.heartbeat_interval_ms
        then (config.heartbeat_interval_ms : ℚ) / 1000
        else s.backend.heartbeatInterval)
    ∧ (handle_update_config s config).dockerCfg.allowed_images =
      (if config.allowed_images.isEmpty then s.dockerCfg.allowed_images
        else config.allowed_images)
    ∧ (handle_update_config s config).maxConcurrentRentals = s.maxConcurrentRentals
    ∧ (heartbeat_step (handle_update_config s config)).2 =
        (handle_update_config s config).backend.heartbeatInterval
    ∧ (handle_update_config s config).backend.status = s.backend.status := by
  unfold handle_update_config heartbeat_step
  by_cases h1 : 0 < config.heartbeat_interval_ms <;>
    by_cases h2 : config.allowed_images.isEmpty <;>
      simp [h1, h2]

/-- C4: every successfully handled `start_instance` emits exactly one
`instance_started` whose `ssh_host` is the configured relay server
address, whose `ssh_port` is `proxy_port_mapping["22"]` when present and
22 otherwise, and whose `additional_ports` is `proxy_port_mapping`
without the `"22"` entry. -/
theorem c4_instance_started_fields (s : AgentState) (data : StartInstanceData)
    (env : StartEnv) (cid : String)
    (hallow : is_image_allowed s.dockerCfg.allowed_images data.image = true)
    (hdaemon : env.daemon = StartOutcome.ok cid)
    (htunnel : (create_tunnel s.tunnel data.rental_id env.cfgPath env.spawn).2 = none) :
    (handle_start_instance s data env).2 =
      [Event.instance_started data.rental_id cid s.frpServerAddr
        ((lookupA data.proxy_port_mapping "22").getD 22)
        (data.proxy_port_mapping.filter (fun p => decide (p.1 ≠ "22")))] := by
  rcases hct : create_tunnel s.tunnel data.rental_id env.cfgPath env.spawn with ⟨t2, err⟩
  rw [hct] at htunnel
  simp only at htunnel
  subst htunnel
  unfold handle_start_instance start_container
  rw [hdaemon, hallow]
  simp [hct]

/-- Witness for C4: a concrete successful start with
`proxy_port_mapping = {"22": 30022, "8888": 30888}` reports
`ssh_port = 30022` and `additional_ports = {"8888": 30888}`. -/
theorem c4_instance_started_fields_witness :
    (handle_start_instance
      { backend := { status := .online, heartbeatInterval := 5, connected := true,
                     reconnectCount := 0 },
        docker := { activeContainers := [] },
        tunnel := { activeTunnels := [], tunnelConfigs := [], disk := [] },
        dockerCfg := { allowed_images := ["pytorch/pytorch:*"] },
        frpServerAddr := "proxy.example.com",
        maxConcurrentRentals := 0 }
      { rental_id := "r1", image := "pytorch/pytorch:2.0.0",
        proxy_port_mapping := [("22", 30022), ("8888", 30888)] }
      { daemon := StartOutcome.ok "c1", cfgPath := "/tmp/frpc_r1.ini",
        spawn := SpawnOutcome.ok 101 }).2 =
      [Event.instance_started "r1" "c1" "proxy.example.com"
        ((lookupA [("22", (30022 : Int)), ("8888", 30888)] "22").getD 22)
        (List.filter (fun p => decide (p.1 ≠ "22")) [("22", (30022 : Int)), ("8888", 30888)])] :=
  c4_instance_started_fields _ _ _ "c1" (by decide) rfl (by decide)

/-- A sample agent state (allow-list `["pytorch/pytorch:*"]`, status
online) used by the C3 witness. -/
def c3State : AgentState :=
  { backend := { status := .online, heartbeatInterval := 5, connected := true,
                 reconnectCount := 0 },
    docker := { activeContainers := [] },
    tunnel := { activeTunnels := [], tunnelConfigs := [], disk := [] },
    dockerCfg := { allowed_images := ["pytorch/pytorch:*"] },
    frpServerAddr := "proxy.example.com",
    maxConcurrentRentals := 0 }

/-- C3: container start raises `ImageNotAllowedError` exactly when the
image reference matches none of the allowed glob patterns; in that case
the handler leaves the whole state unchanged (no container record, no
tunnel record) and emits only
`agent_error(code="START_INSTANCE_FAILED")`; and a tag-less
(metacharacter-free) pattern matches only the exact reference. -/
theorem c3_image_allowance_gate :
    (∀ (cfg : DockerConfig) (st : DockerState) (data : StartInstanceData)
        (daemon : StartOutcome),
        ((∃ m, start_container cfg st data daemon =
            .error (.imageNotAllowed m)) ↔
          is_image_allowed cfg.allowed_images data.image = false))
    ∧ (∀ (s : AgentState) (data : StartInstanceData) (env : StartEnv),
        is_image_allowed s.dockerCfg.allowed_images data.image = false →
        handle_start_instance s data env =
          (s, [.agent_error "START_INSTANCE_FAILED"
                (imageNotAllowedMsg data.image s.dockerCfg.allowed_images)]))
    ∧ (∀ (name pattern : String), plainPattern pattern = true →
        (fnmatch name pattern = true ↔ name = pattern)) := by
  refine ⟨?_, ?_, fnmatch_plain⟩
  · intro cfg st data daemon
    by_cases ha : is_image_allowed cfg.allowed_images data.image = true
    · cases daemon <;> simp [start_container, ha]
    · simp only [Bool.not_eq_true] at ha
      simp [start_container, ha]
  · intro s data env h
    unfold handle_start_instance
    rw [start_container_error_of_not_allowed _ _ _ _ h]
    simp [DockerErr.message]

/-- Witness for C3: `evil/image:latest` matches no allowed pattern, the
handler leaves the state unchanged and reports the failure; and the
tag-less pattern `nvidia/cuda` does not match `nvidia/cuda:12`. -/
theorem c3_image_allowance_gate_witness :
    handle_start_instance c3State
      { rental_id := "r1", image := "evil/image:latest", proxy_port_mapping := [] }
      { daemon := StartOutcome.ok "c1", cfgPath := "/tmp/f.ini",
        spawn := SpawnOutcome.ok 7 } =
      (c3State, [Event.agent_error "START_INSTANCE_FAILED"
        (imageNotAllowedMsg "evil/image:latest" ["pytorch/pytorch:*"])])
    ∧ (fnmatch "nvidia/cuda:12" "nvidia/cuda" = true ↔ "nvidia/cuda:12" = "nvidia/cuda") :=
  ⟨c3_image_allowance_gate.2.1 c3State
      { rental_id := "r1", image := "evil/image:latest", proxy_port_mapping := [] }
      { daemon := StartOutcome.ok "c1", cfgPath := "/tmp/f.ini",
        spawn := SpawnOutcome.ok 7 } (by decide),
   c3_image_allowance_gate.2.2 "nvidia/cuda:12" "nvidia/cuda" (by decide)⟩

/-- Does this `stop_instance` handling reach the branch that found the
pruned active-rental map empty (the only branch that writes the status)?
Mirrors the `if not self.docker.list_active_rentals()` test in
`_handle_stop_instance`. -/
def stop_clears_rentals (s : AgentState) (data : StopInstanceData) (env : StopEnv) : Bool :=
  match stop_container s.docker data.container_id data.rental_id
      data.graceful data.timeout_seconds env.stopOutcome with
  | .error _ => false
  | .ok d2 =>
    match list_active_rentals d2 env.inspect with
    | .error _ => false
    | .ok (_, active) => active.isEmpty

/-- A sample agent state in `MAINTENANCE` with one active rental, used by
the C1 counterexample and witness. -/
def c1State : AgentState :=
  { backend := { status := .maintenance, heartbeatInterval := 5, connected := true,
                 reconnectCount := 0 },
    docker := { activeContainers := [("r1", "c1")] },
    tunnel := { activeTunnels := [("r1", { pid := 101, exitCode := none })],
                tunnelConfigs := [("r1", "/tmp/frpc_r1.ini")],
                disk := ["/tmp/frpc_r1.ini"] },
    dockerCfg := { allowed_images := ["pytorch/pytorch:*"] },
    frpServerAddr := "proxy.example.com",
    maxConcurrentRentals := 0 }

/-- C1 counterexample: from `MAINTENANCE`, handling a `stop_instance`
that stops the last rental resets the status to `ONLINE`, and a
successful session (re)connect also resets it to `ONLINE` — both without
a process restart. -/
theorem c1_maintenance_not_sticky_counterexample :
    c1State.backend.status = NodeStatus.maintenance
    ∧ ((handle_stop_instance c1State
          { rental_id := "r1", container_id := "c1", graceful := true,
            timeout_seconds := 30 }
          { stopOutcome := .stopped, inspect := fun _ => .notFound }).1).backend.status
        = NodeStatus.online
    ∧ ((connect { status := .maintenance, heartbeatInterval := 5, connected := false,
                  reconnectCount := 2 } true).1).status = NodeStatus.online
    ∧ NodeStatus.online ≠ NodeStatus.maintenance := by
  exact ⟨rfl, by decide, by decide, by decide⟩

/-- C1 (amended): handling `start_instance` never moves the status away
from `MAINTENANCE`, and handling `stop_instance` keeps `MAINTENANCE`
unless it finds the pruned active-rental map empty — in which case it
resets the status to `ONLINE`; a successful dial in `connect` also
resets the status to `ONLINE`.  So `MAINTENANCE` is sticky only until
the last rental stops or the session reconnects, not until restart. -/
theorem c1_maintenance_persistence (s : AgentState) :
    (∀ (data : StartInstanceData) (env : StartEnv),
        s.backend.status = .maintenance →
        ((handle_start_instance s data env).1).backend.status = .maintenance)
    ∧ (∀ (data : StopInstanceData) (env : StopEnv),
        s.backend.status = .maintenance →
        ((handle_stop_instance s data env).1).backend.status =
          (if stop_clears_rentals s data env then NodeStatus.online
           else NodeStatus.maintenance))
    ∧ (s.backend.connected = false →
        ((connect s.backend true).1).status = NodeStatus.online) := by
  refine ⟨?_, ?_, ?_⟩
  · intro data env h
    cases hsc : start_container s.dockerCfg s.docker data env.daemon with
    | error e => simpa [handle_start_instance, hsc] using h
    | ok pr =>
      obtain ⟨d2, cid⟩ := pr
      rcases hct : create_tunnel s.tunnel data.rental_id env.cfgPath env.spawn with ⟨t2, err⟩
      cases err with
      | some m => simpa [handle_start_instance, hsc, hct] using h
      | none => simp [handle_start_instance, hsc, hct, h]
  · intro data env h
    unfold handle_stop_instance stop_clears_rentals
    cases hsc : stop_container s.docker data.container_id data.rental_id
        data.graceful data.timeout_seconds env.stopOutcome with
    | error m => simp [hsc, h]
    | ok d2 =>
      cases hla : list_active_rentals d2 env.inspect with
      | error m => simp [hla, h]
      | ok pr =>
        obtain ⟨d3, active⟩ := pr
        by_cases he : active.isEmpty <;> simp [hla, h, he]
  · intro h
    unfold connect
    simp [h]

/-- Witness for C1: from `MAINTENANCE`, a successful `start_instance`
leaves the status at `MAINTENANCE`. -/
theorem c1_maintenance_persistence_witness :
    ((handle_start_instance c1State
        { rental_id := "r9", image := "pytorch/pytorch:2.0.0",
          proxy_port_mapping := [] }
        { daemon := StartOutcome.ok "c9", cfgPath := "/tmp/f9.ini",
          spawn := SpawnOutcome.ok 9 }).1).backend.status = NodeStatus.maintenance :=
  (c1_maintenance_persistence c1State).1
    { rental_id := "r9", image := "pytorch/pytorch:2.0.0", proxy_port_mapping := [] }
    { daemon := StartOutcome.ok "c9", cfgPath := "/tmp/f9.ini",
      spawn := SpawnOutcome.ok 9 } (by decide)

theorem option_eq_none_of_not_isSome {α : Type} (o : Option α)
    (h : ¬ o.isSome = true) : o = none := by
  cases o
  · rfl
  · simp at h

/-- A sample agent state with two active rentals where the daemon errors
on the post-stop status probe, used by the C5 counterexample. -/
def c5State : AgentState :=
  { backend := { status := .busy, heartbeatInterval := 5, connected := true,
                 reconnectCount := 0 },
    docker := { activeContainers := [("r1", "c1"), ("r2", "c2")] },
    tunnel := { activeTunnels := [("r1", { pid := 101, exitCode := none })],
                tunnelConfigs := [("r1", "/tmp/frpc_r1.ini")],
                disk := ["/tmp/frpc_r1.ini"] },
    dockerCfg := { allowed_images := [] },
    frpServerAddr := "proxy.example.com",
    maxConcurrentRentals := 0 }

/-- C5 counterexample: tunnel destruction and container stop both
succeed, yet the handler emits TWO `instance_stopped` events — the
`requested` one, then an `error` one — because the active-rental pruning
after the success event raises a daemon error that lands in the same
`except` block. -/
theorem c5_double_emission_counterexample :
    (handle_stop_instance c5State
      { rental_id := "r1", container_id := "c1", graceful := true,
        timeout_seconds := 30 }
      { stopOutcome := .stopped,
        inspect := fun _ => .apiError "500 Server Error" }).2 =
      [Event.instance_stopped "r1" "c1" "requested" none,
       Event.instance_stopped "r1" "c1" "error" (some "500 Server Error")]
    ∧ ((handle_stop_instance c5State
      { rental_id := "r1", container_id := "c1", graceful := true,
        timeout_seconds := 30 }
      { stopOutcome := .stopped,
        inspect := fun _ => .apiError "500 Server Error" }).2).length ≠ 1 := by
  exact ⟨by decide, by decide⟩

/-- C5 (amended): the handler emits exactly one
`instance_stopped(reason="requested", no error_message)` when tunnel
destruction, container stop, and the subsequent active-rental pruning
all succeed; exactly one `instance_stopped(reason="error")` carrying the
exception message when the container stop raises; and a `requested`
event followed by an `error` event when the stop succeeds but the
pruning query raises.  A container the daemon reports as not found
counts as a successful stop. -/
theorem c5_stop_instance_events (s : AgentState) (data : StopInstanceData)
    (env : StopEnv) :
    (∀ m, stop_container s.docker data.container_id data.rental_id
        data.graceful data.timeout_seconds env.stopOutcome = .error m →
        (handle_stop_instance s data env).2 =
          [Event.instance_stopped data.rental_id data.container_id "error" (some m)])
    ∧ (∀ d2, stop_container s.docker data.container_id data.rental_id
        data.graceful data.timeout_seconds env.stopOutcome = .ok d2 →
        (∀ d3 active, list_active_rentals d2 env.inspect = .ok (d3, active) →
            (handle_stop_instance s data env).2 =
              [Event.instance_stopped data.rental_id data.container_id
                "requested" none])
        ∧ (∀ m, list_active_rentals d2 env.inspect = .error m →
            (handle_stop_instance s data env).2 =
              [Event.instance_stopped data.rental_id data.container_id
                "requested" none,
               Event.instance_stopped data.rental_id data.container_id
                "error" (some m)]))
    ∧ (∀ (st : DockerState) (cid rid : String) (g : Bool) (tmo : Int),
        ∃ d2, stop_container st cid rid g tmo StopOutcome.notFound = .ok d2) := by
  refine ⟨?_, ?_, ?_⟩
  · intro m hm
    simp [handle_stop_instance, hm]
  · intro d2 hd
    constructor
    · intro d3 active hla
      simp [handle_stop_instance, hd, hla]
    · intro m hla
      simp [handle_stop_instance, hd, hla]
  · intro st cid rid g tmo
    exact ⟨_, rfl⟩

/-- A sample agent state with a single rental, used by the C5 witness. -/
def c5WitnessState : AgentState :=
  { backend := { status := .busy, heartbeatInterval := 5, connected := true,
                 reconnectCount := 0 },
    docker := { activeContainers := [("r1", "c1")] },
    tunnel := { activeTunnels := [("r1", { pid := 101, exitCode := none })],
                tunnelConfigs := [("r1", "/tmp/frpc_r1.ini")],
                disk := ["/tmp/frpc_r1.ini"] },
    dockerCfg := { allowed_images := [] },
    frpServerAddr := "proxy.example.com",
    maxConcurrentRentals := 0 }

/-- Witness for C5: a fully successful stop emits exactly the single
`requested` event. -/
theorem c5_stop_instance_events_witness :
    (handle_stop_instance c5WitnessState
      { rental_id := "r1", container_id := "c1", graceful := true,
        timeout_seconds := 30 }
      { stopOutcome := .stopped, inspect := fun _ => .notFound }).2 =
      [Event.instance_stopped "r1" "c1" "requested" none] :=
  ((c5_stop_instance_events c5WitnessState
      { rental_id := "r1", container_id := "c1", graceful := true,
        timeout_seconds := 30 }
      { stopOutcome := .stopped, inspect := fun _ => .notFound }).2.1
    { activeContainers := [] } (by rfl)).1
    { activeContainers := [] } [] (by rfl)

theorem create_tunnel_countKey (t : TunnelState) (rid cfgPath : String)
    (spawn : SpawnOutcome) (h : countKey t.activeTunnels rid ≤ 1) :
    countKey ((create_tunnel t rid cfgPath spawn).1).activeTunnels rid ≤ 1 := by
  unfold create_tunnel
  by_cases hl : (lookupA t.activeTunnels rid).isSome = true
  · simp [hl, h]
  · have h0 : lookupA t.activeTunnels rid = none :=
      option_eq_none_of_not_isSome _ hl
    have hc0 : countKey t.activeTunnels rid = 0 := lookupA_none_countKey _ _ h0
    cases spawn with
    | ok pid => simp [hl, countKey_append_single, hc0]
    | frpcMissing => simp [hl, h]
    | spawnFail m => simp [hl, h]

theorem handle_start_docker_countKey (s : AgentState) (data : StartInstanceData)
    (env : StartEnv) (h : countKey s.docker.activeContainers data.rental_id ≤ 1) :
    countKey (((handle_start_instance s data env).1).docker.activeContainers)
      data.rental_id ≤ 1 := by
  cases hsc : start_container s.dockerCfg s.docker data env.daemon with
  | error e => simpa [handle_start_instance, hsc] using h
  | ok pr =>
    obtain ⟨d2, cid⟩ := pr
    have hd2 := start_container_ok_state _ _ _ _ _ _ hsc
    have hcount : countKey d2.activeContainers data.rental_id ≤ 1 := by
      rw [hd2, countKey_insertA]
      omega
    rcases hct : create_tunnel s.tunnel data.rental_id env.cfgPath env.spawn with ⟨t2, err⟩
    cases err with
    | some m => simpa [handle_start_instance, hsc, hct] using hcount
    | none => simpa [handle_start_instance, hsc, hct] using hcount

theorem handle_start_tunnel_countKey (s : AgentState) (data : StartInstanceData)
    (env : StartEnv) (h : countKey s.tunnel.activeTunnels data.rental_id ≤ 1) :
    countKey (((handle_start_instance s data env).1).tunnel.activeTunnels)
      data.rental_id ≤ 1 := by
  cases hsc : start_container s.dockerCfg s.docker data env.daemon with
  | error e => simpa [handle_start_instance, hsc] using h
  | ok pr =>
    obtain ⟨d2, cid⟩ := pr
    have hcnt := create_tunnel_countKey s.tunnel data.rental_id env.cfgPath env.spawn h
    rcases hct : create_tunnel s.tunnel data.rental_id env.cfgPath env.spawn with ⟨t2, err⟩
    rw [hct] at hcnt
    cases err with
    | some m => simpa [handle_start_instance, hsc, hct] using hcnt
    | none => simpa [handle_start_instance, hsc, hct] using hcnt

/-- C2: processing two consecutive `start_instance` commands with the
same `rental_id` leaves at most one container record in the container
supervisor map and at most one tunnel record in the tunnel supervisor
map (from any dict-shaped state, i.e. one with at most one record per
key); and a tunnel create on an already-present `rental_id` returns
without changing any state. -/
theorem c2_start_idempotent :
    (∀ (s : AgentState) (data : StartInstanceData) (env1 env2 : StartEnv),
        countKey s.docker.activeContainers data.rental_id ≤ 1 →
        countKey s.tunnel.activeTunnels data.rental_id ≤ 1 →
        countKey (((handle_start_instance
            ((handle_start_instance s data env1).1) data env2).1).docker.activeContainers)
            data.rental_id ≤ 1
        ∧ countKey (((handle_start_instance
            ((handle_start_instance s data env1).1) data env2).1).tunnel.activeTunnels)
            data.rental_id ≤ 1)
    ∧ (∀ (t : TunnelState) (rid cfgPath : String) (spawn : SpawnOutcome),
        (lookupA t.activeTunnels rid).isSome = true →
        create_tunnel t rid cfgPath spawn = (t, none)) := by
  constructor
  · intro s data env1 env2 hd ht
    exact ⟨handle_start_docker_countKey _ _ _ (handle_start_docker_countKey _ _ _ hd),
           handle_start_tunnel_countKey _ _ _ (handle_start_tunnel_countKey _ _ _ ht)⟩
  · intro t rid cfgPath spawn h
    unfold create_tunnel
    simp [h]

/-- Witness for C2: two identical successful starts for `"r1"` from the
empty state leave exactly one container record and one tunnel record. -/
theorem c2_start_idempotent_witness :
    countKey (((handle_start_instance
        ((handle_start_instance c3State
          { rental_id := "r1", image := "pytorch/pytorch:2.0.0",
            proxy_port_mapping := [("22", 30022)] }
          { daemon := StartOutcome.ok "c1", cfgPath := "/tmp/f1.ini",
            spawn := SpawnOutcome.ok 101 }).1)
        { rental_id := "r1", image := "pytorch/pytorch:2.0.0",
          proxy_port_mapping := [("22", 30022)] }
        { daemon := StartOutcome.ok "c9", cfgPath := "/tmp/f2.ini",
          spawn := SpawnOutcome.ok 102 }).1).docker.activeContainers) "r1" ≤ 1
    ∧ countKey (((handle_start_instance
        ((handle_start_instance c3State
          { rental_id := "r1", image := "pytorch/pytorch:2.0.0",
            proxy_port_mapping := [("22", 30022)] }
          { daemon := StartOutcome.ok "c1", cfgPath := "/tmp/f1.ini",
            spawn := SpawnOutcome.ok 101 }).1)
        { rental_id := "r1", image := "pytorch/pytorch:2.0.0",
          proxy_port_mapping := [("22", 30022)] }
        { daemon := StartOutcome.ok "c9", cfgPath := "/tmp/f2.ini",
          spawn := SpawnOutcome.ok 102 }).1).tunnel.activeTunnels) "r1" ≤ 1 :=
  c2_start_idempotent.1 c3State
    { rental_id := "r1", image := "pytorch/pytorch:2.0.0",
      proxy_port_mapping := [("22", 30022)] }
    { daemon := StartOutcome.ok "c1", cfgPath := "/tmp/f1.ini",
      spawn := SpawnOutcome.ok 101 }
    { daemon := StartOutcome.ok "c9", cfgPath := "/tmp/f2.ini",
      spawn := SpawnOutcome.ok 102 }
    (by decide) (by decide)

theorem destroy_tunnel_active_mem (st : TunnelState) (k : String)
    (e : String × ProcState) (h : e ∈ (destroy_tunnel st k).activeTunnels) :
    e ∈ st.activeTunnels ∧ e.1 ≠ k := by
  unfold destroy_tunnel at h
  by_cases hl : (lookupA st.activeTunnels k).isSome = true
  · rw [if_pos hl] at h
    simp only [eraseA, List.mem_filter, decide_eq_true_eq] at h
    exact h
  · rw [if_neg hl] at h
    have h0 : lookupA st.activeTunnels k = none :=
      option_eq_none_of_not_isSome _ hl
    exact ⟨h, (lookupA_eq_none_iff _ _).1 h0 e h⟩

theorem destroy_tunnel_disk_mem (st : TunnelState) (k p : String)
    (h : p ∈ (destroy_tunnel st k).disk) : p ∈ st.disk := by
  unfold destroy_tunnel at h
  by_cases hl : (lookupA st.activeTunnels k).isSome = true
  · rw [if_pos hl] at h
    simp only at h
    cases hp : (popA st.tunnelConfigs k).1 with
    | none => rw [hp] at h; exact h
    | some q =>
      rw [hp] at h
      have h2 : p ∈ (if q ∈ st.disk then unlinkPath st.disk q else st.disk) := h
      by_cases hm : q ∈ st.disk
      · rw [if_pos hm] at h2
        simp only [unlinkPath, List.mem_filter] at h2
        exact h2.1
      · rw [if_neg hm] at h2
        exact h2
  · rw [if_neg hl] at h
    exact h

theorem destroy_tunnel_active_lookup_ne (st : TunnelState) (k r : String)
    (hne : r ≠ k) :
    lookupA (destroy_tunnel st k).activeTunnels r = lookupA st.activeTunnels r := by
  unfold destroy_tunnel
  by_cases hl : (lookupA st.activeTunnels k).isSome = true
  · rw [if_pos hl]
    exact lookupA_filter_ne _ _ _ hne
  · rw [if_neg hl]

theorem destroy_tunnel_configs_lookup_ne (st : TunnelState) (k r : String)
    (hne : r ≠ k) :
    lookupA (destroy_tunnel st k).tunnelConfigs r = lookupA st.tunnelConfigs r := by
  unfold destroy_tunnel
  by_cases hl : (lookupA st.activeTunnels k).isSome = true
  · rw [if_pos hl]
    exact lookupA_popA_ne _ _ _ hne
  · rw [if_neg hl]

theorem destroy_tunnel_unlinks (st : TunnelState) (k : String) (proc : ProcState)
    (path : String) (hlk : lookupA st.activeTunnels k = some proc)
    (hcfg : lookupA st.tunnelConfigs k = some path) :
    path ∉ (destroy_tunnel st k).disk := by
  unfold destroy_tunnel
  have hl : (lookupA st.activeTunnels k).isSome = true := by rw [hlk]; rfl
  rw [if_pos hl]
  simp only [popA_fst, hcfg]
  by_cases hm : path ∈ st.disk
  · rw [if_pos hm]
    simp [unlinkPath]
  · rw [if_neg hm]
    exact hm

theorem foldl_destroy_active_mem (ks : List String) (st : TunnelState)
    (e : String × ProcState)
    (h : e ∈ (ks.foldl destroy_tunnel st).activeTunnels) :
    e ∈ st.activeTunnels ∧ e.1 ∉ ks := by
  induction ks generalizing st with
  | nil =>
    rw [List.foldl_nil] at h
    exact ⟨h, List.not_mem_nil e.1⟩
  | cons k ks ih =>
    rw [List.foldl_cons] at h
    obtain ⟨h1, h2⟩ := ih (destroy_tunnel st k) h
    obtain ⟨h3, h4⟩ := destroy_tunnel_active_mem st k e h1
    refine ⟨h3, ?_⟩
    intro hmem
    rcases List.mem_cons.1 hmem with h5 | h5
    · exact h4 h5
    · exact h2 h5

theorem foldl_destroy_disk_mem (ks : List String) (st : TunnelState) (p : String)
    (h : p ∈ (ks.foldl destroy_tunnel st).disk) : p ∈ st.disk := by
  induction ks generalizing st with
  | nil => rw [List.foldl_nil] at h; exact h
  | cons k ks ih =>
    rw [List.foldl_cons] at h
    exact destroy_tunnel_disk_mem st k p (ih (destroy_tunnel st k) h)

theorem foldl_destroy_unlinks (ks : List String) (st : TunnelState)
    (rid path : String) (hmem : rid ∈ ks)
    (hact : (lookupA st.activeTunnels rid).isSome = true)
    (hcfg : lookupA st.tunnelConfigs rid = some path) :
    path ∉ (ks.foldl destroy_tunnel st).disk := by
  induction ks generalizing st with
  | nil => simp at hmem
  | cons k ks ih =>
    rw [List.foldl_cons]
    by_cases hrk : rid = k
    · subst hrk
      obtain ⟨proc, hproc⟩ := Option.isSome_iff_exists.1 hact
      have hout : path ∉ (destroy_tunnel st rid).disk :=
        destroy_tunnel_unlinks st rid proc path hproc hcfg
      intro hin
      exact hout (foldl_destroy_disk_mem ks (destroy_tunnel st rid) path hin)
    · have hmem2 : rid ∈ ks := by
        rcases List.mem_cons.1 hmem with h1 | h1
        · exact absurd h1 hrk
        · exact h1
      have hact2 : (lookupA (destroy_tunnel st k).activeTunnels rid).isSome = true := by
        rw [destroy_tunnel_active_lookup_ne st k rid hrk]
        exact hact
      have hcfg2 : lookupA (destroy_tunnel st k).tunnelConfigs rid = some path := by
        rw [destroy_tunnel_configs_lookup_ne st k rid hrk]
        exact hcfg
      exact ih (destroy_tunnel st k) hmem2 hact2 hcfg2

/-- C9: from any tunnel-supervisor state (hence after any finite
sequence of creates and other tunnel operations), `destroy_all_tunnels`
leaves the active-tunnel map empty and removes from disk the config
file recorded for every tunnel that was active. -/
theorem c9_destroy_all_tunnels (st : TunnelState) :
    (destroy_all_tunnels st).activeTunnels = []
    ∧ (∀ (rid path : String), (lookupA st.activeTunnels rid).isSome = true →
        lookupA st.tunnelConfigs rid = some path →
        path ∉ (destroy_all_tunnels st).disk) := by
  unfold destroy_all_tunnels
  constructor
  · rw [List.eq_nil_iff_forall_not_mem]
    intro e he
    obtain ⟨h1, h2⟩ := foldl_destroy_active_mem _ _ e he
    exact h2 (List.mem_map_of_mem Prod.fst h1)
  · intro rid path hact hcfg
    exact foldl_destroy_unlinks _ _ rid path
      (lookupA_isSome_mem_keys _ _ hact) hact hcfg

/-- Witness for C9: destroying everything from a two-tunnel state
empties the map and removes the recorded config file of `"r1"`. -/
theorem c9_destroy_all_tunnels_witness :
    (destroy_all_tunnels
      { activeTunnels := [("r1", { pid := 101, exitCode := none }),
                          ("r2", { pid := 102, exitCode := some 0 })],
        tunnelConfigs := [("r1", "/tmp/a.ini"), ("r2", "/tmp/b.ini")],
        disk := ["/tmp/a.ini", "/tmp/b.ini", "/tmp/other"] }).activeTunnels = []
    ∧ "/tmp/a.ini" ∉ (destroy_all_tunnels
      { activeTunnels := [("r1", { pid := 101, exitCode := none }),
                          ("r2", { pid := 102, exitCode := some 0 })],
        tunnelConfigs := [("r1", "/tmp/a.ini"), ("r2", "/tmp/b.ini")],
        disk := ["/tmp/a.ini", "/tmp/b.ini", "/tmp/other"] }).disk :=
  ⟨(c9_destroy_all_tunnels
      { activeTunnels := [("r1", { pid := 101, exitCode := none }),
                          ("r2", { pid := 102, exitCode := some 0 })],
        tunnelConfigs := [("r1", "/tmp/a.ini"), ("r2", "/tmp/b.ini")],
        disk := ["/tmp/a.ini", "/tmp/b.ini", "/tmp/other"] }).1,
   (c9_destroy_all_tunnels
      { activeTunnels := [("r1", { pid := 101, exitCode := none }),
                          ("r2", { pid := 102, exitCode := some 0 })],
        tunnelConfigs := [("r1", "/tmp/a.ini"), ("r2", "/tmp/b.ini")],
        disk := ["/tmp/a.ini", "/tmp/b.ini", "/tmp/other"] }).2
    "r1" "/tmp/a.ini" (by decide) (by decide)⟩
